import Mathlib

/-
Verification of the webotron deployment tool (bucket.py, webotron.py)
against its natural-language specification.

The embedding models:
  * `gen_etag` / `hash_data` / `CHUNK_SIZE` (bucket.py, BucketManager) —
    the chunked content-fingerprint algorithm, parameterised over the MD5
    digest function (a pure `List Nat → List Nat` on byte lists);
  * the upload-skip test of `upload_file` and the manifest handling of
    `load_manifest` (Python dicts as association lists with
    replace-or-append update);
  * `init_bucket` / `set_policy` / `configure_website` / `setup_bucket`
    as a transition on an explicit S3 world state, with provider
    behaviour (create_bucket conflicts) made an explicit case split;
  * `setup_cdn` (webotron.py) as an event trace over an environment
    recording what the collaborator lookups return;
  * `get_region_name` with Python `or` truthiness made explicit.
-/

namespace Webotron

/-- CHUNK_SIZE from bucket.py: AWS multipart chunk size, 8 MiB. -/
def CHUNK_SIZE : Nat := 8388608

/-- The read loop of `gen_etag`: split a file's byte content into
consecutive chunks of at most `CHUNK_SIZE` bytes, as produced by
repeated `f.read(CHUNK_SIZE)` calls. -/
def chunks (content : List Nat) : List (List Nat) :=
  if h : content = [] then []
  else content.take CHUNK_SIZE :: chunks (content.drop CHUNK_SIZE)
termination_by content.length
decreasing_by
  simp only [List.length_drop]
  have hpos : 0 < content.length := List.length_pos.mpr h
  have : 0 < CHUNK_SIZE := by decide
  omega

theorem chunks_nil : chunks [] = [] := by
  rw [chunks]
  simp

theorem chunks_cons (content : List Nat) (h : content ≠ []) :
    chunks content = content.take CHUNK_SIZE :: chunks (content.drop CHUNK_SIZE) := by
  rw [chunks]
  simp [h]

theorem chunks_single (content : List Nat) (h0 : content ≠ [])
    (h1 : content.length ≤ CHUNK_SIZE) : chunks content = [content] := by
  rw [chunks_cons content h0]
  have ht : content.take CHUNK_SIZE = content := List.take_of_length_le h1
  have hd : content.drop CHUNK_SIZE = [] := List.drop_eq_nil_of_le h1
  rw [ht, hd, chunks_nil]

theorem chunks_length_aux : ∀ (n : Nat) (content : List Nat), content.length ≤ n →
    (chunks content).length = (content.length + (CHUNK_SIZE - 1)) / CHUNK_SIZE := by
  have hCSpos : 0 < CHUNK_SIZE := by decide
  intro n
  induction n with
  | zero =>
      intro content hc
      have h0 : content = [] := List.length_eq_zero.mp (by omega)
      subst h0
      rw [chunks_nil]
      simp only [List.length_nil, Nat.zero_add]
      exact (Nat.div_eq_of_lt (by omega)).symm
  | succ n ih =>
      intro content hc
      by_cases h0 : content = []
      · subst h0
        rw [chunks_nil]
        simp only [List.length_nil, Nat.zero_add]
        exact (Nat.div_eq_of_lt (by omega)).symm
      · rw [chunks_cons content h0]
        have hpos : 0 < content.length := List.length_pos.mpr h0
        have hdl : (content.drop CHUNK_SIZE).length = content.length - CHUNK_SIZE := by
          simp
        have ihd := ih (content.drop CHUNK_SIZE) (by rw [hdl]; omega)
        rw [List.length_cons, ihd, hdl]
        by_cases hle : content.length ≤ CHUNK_SIZE
        · have hz : content.length - CHUNK_SIZE = 0 := by omega
          have h1 : (0 + (CHUNK_SIZE - 1)) / CHUNK_SIZE = 0 := Nat.div_eq_of_lt (by omega)
          have h2 : (content.length + (CHUNK_SIZE - 1)) / CHUNK_SIZE = 1 := by
            apply Nat.div_eq_of_lt_le
            · omega
            · omega
          rw [hz, h1, h2]
        · have hsplit : content.length + (CHUNK_SIZE - 1)
              = (content.length - CHUNK_SIZE + (CHUNK_SIZE - 1)) + CHUNK_SIZE := by omega
          rw [hsplit, Nat.add_div_right _ hCSpos]

theorem chunks_length (content : List Nat) :
    (chunks content).length = (content.length + (CHUNK_SIZE - 1)) / CHUNK_SIZE :=
  chunks_length_aux content.length content (Nat.le_refl _)

/-- Hex digit character, lowercase, as produced by hexdigest. -/
def hexChar (n : Nat) : Char :=
  if n < 10 then Char.ofNat (48 + n) else Char.ofNat (87 + n)

/-- Two lowercase hex characters for one byte. -/
def byteHex (b : Nat) : String :=
  String.mk [hexChar (b % 256 / 16), hexChar (b % 16)]

/-- `hexdigest()` of a hash state whose raw digest is the given byte list. -/
def hexdigest (digest : List Nat) : String :=
  String.join (digest.map byteHex)

/-- Wrap a string in double quotes, as the f-strings in `gen_etag` do. -/
def dquote (s : String) : String := "\"" ++ s ++ "\""

/-- `gen_etag` from bucket.py, parameterised over the MD5 digest function
(`md5 bytes` is the raw 16-byte digest of `bytes`).  The three branches
mirror `if not hashes` / `elif len(hashes) == 1` / `else`, where the
`else` branch hashes `reduce(lambda x, y: x + y, digests)`. -/
def gen_etag (md5 : List Nat → List Nat) (content : List Nat) : Option String :=
  match (chunks content).map md5 with
  | [] => none
  | [h] => some (dquote (hexdigest h))
  | h1 :: h2 :: t =>
      some (dquote (hexdigest (md5 ((h2 :: t).foldl (· ++ ·) h1))
        ++ "-" ++ toString (h1 :: h2 :: t).length))

/-- Concatenation of a list of byte lists, in order. -/
def concatAll (ls : List (List Nat)) : List Nat := ls.foldr (· ++ ·) []

theorem concatAll_cons (x : List Nat) (ls : List (List Nat)) :
    concatAll (x :: ls) = x ++ concatAll ls := rfl

theorem foldl_append_eq_concatAll (t : List (List Nat)) :
    ∀ h : List Nat, t.foldl (· ++ ·) h = h ++ concatAll t := by
  induction t with
  | nil => intro h; simp [concatAll]
  | cons x xs ih =>
      intro h
      simp only [List.foldl_cons, ih, concatAll_cons]
      rw [List.append_assoc]

/-- C1: For a file whose byte content fits in exactly one chunk of at most
8388608 bytes, `gen_etag` returns the double-quoted hex MD5 digest of the
whole file; for a file splitting into n > 1 chunks (n is the ceiling of
length / 8388608), it returns the double-quoted hex MD5 digest of the
concatenation, in chunk order, of the raw chunk digests, suffixed with
"-" and n. -/
theorem gen_etag_spec (md5 : List Nat → List Nat) (content : List Nat) :
    gen_etag md5 content =
      if content.length = 0 then none
      else if content.length ≤ CHUNK_SIZE then
        some (dquote (hexdigest (md5 content)))
      else
        some (dquote (hexdigest (md5 (concatAll ((chunks content).map md5)))
          ++ "-" ++ toString ((content.length + (CHUNK_SIZE - 1)) / CHUNK_SIZE))) := by
  by_cases h0 : content = []
  · subst h0
    simp [gen_etag, chunks_nil]
  · have hlen0 : ¬ content.length = 0 := by
      simpa [List.length_eq_zero] using h0
    rw [if_neg hlen0]
    by_cases h1 : content.length ≤ CHUNK_SIZE
    · rw [if_pos h1]
      have hc := chunks_single content h0 h1
      simp [gen_etag, hc]
    · rw [if_neg h1]
      have hlt : CHUNK_SIZE < content.length := Nat.lt_of_not_le h1
      have hd0 : content.drop CHUNK_SIZE ≠ [] := by
        intro hd
        have hl := congrArg List.length hd
        simp only [List.length_drop, List.length_nil] at hl
        omega
      have hch := chunks_cons content h0
      have hch2 := chunks_cons (content.drop CHUNK_SIZE) hd0
      have hfull : chunks content
          = content.take CHUNK_SIZE
            :: (content.drop CHUNK_SIZE).take CHUNK_SIZE
            :: chunks ((content.drop CHUNK_SIZE).drop CHUNK_SIZE) := by
        rw [hch, hch2]
      simp only [gen_etag, hfull, List.map_cons]
      rw [foldl_append_eq_concatAll]
      simp only [concatAll_cons]
      have hlen : (md5 (content.take CHUNK_SIZE)
            :: md5 ((content.drop CHUNK_SIZE).take CHUNK_SIZE)
            :: List.map md5 (chunks ((content.drop CHUNK_SIZE).drop CHUNK_SIZE))).length
          = (content.length + (CHUNK_SIZE - 1)) / CHUNK_SIZE := by
        have hcl := chunks_length content
        rw [hfull] at hcl
        simp only [List.length_cons, List.length_map] at hcl ⊢
        omega
      rw [hlen]

/-
Manifest and upload-skip model (upload_file / load_manifest in bucket.py).
A Python dict is modelled as an association list with replace-or-append
update; `dict.get(key, '')` with its default is `manifest_get`.
-/

/-- `self.manifest.get(key, '')`: the manifest lookup with default `''`. -/
def manifest_get (m : List (String × String)) (key : String) : String :=
  match m.lookup key with
  | some v => v
  | none => ""

/-- Python `==` between the string from the manifest lookup and the value
returned by `gen_etag` (a string or None): comparing a string with None is
False. -/
def pyStrEqOpt (s : String) (etag : Option String) : Bool :=
  match etag with
  | some t => s == t
  | none => false

/-- The upload decision of `upload_file`: the skip branch fires iff
`self.manifest.get(key, '') == etag`; `should_upload` is its negation. -/
def should_upload (key : String) (etag : Option String)
    (m : List (String × String)) : Bool :=
  !(pyStrEqOpt (manifest_get m key) etag)

/-- `self.manifest[key] = value` on the association-list dict: replace the
existing entry for the key, or append a fresh one. -/
def dictSet : List (String × String) → String → String → List (String × String)
  | [], k, v => [(k, v)]
  | (k', v') :: rest, k, v =>
      if k' = k then (k, v) :: rest else (k', v') :: dictSet rest k v

/-- `load_manifest` from bucket.py: fold the (fully drained, flattened)
object listing into `self.manifest`, setting `manifest[Key] = ETag` for
every listed object; the pre-existing manifest is the accumulator. -/
def load_manifest (objs : List (String × String))
    (m : List (String × String)) : List (String × String) :=
  objs.foldl (fun acc kv => dictSet acc kv.1 kv.2) m

theorem lookup_dictSet (m : List (String × String)) (k v k' : String) :
    (dictSet m k v).lookup k' = if k' = k then some v else m.lookup k' := by
  induction m with
  | nil =>
      by_cases h : k' = k
      · simp [dictSet, List.lookup, h]
      · have hb : (k' == k) = false := beq_eq_false_iff_ne.mpr h
        simp [dictSet, List.lookup, hb, h]
  | cons p rest ih =>
      obtain ⟨a, b⟩ := p
      by_cases h1 : a = k
      · subst h1
        by_cases h2 : k' = a
        · simp [dictSet, List.lookup, h2]
        · have hb : (k' == a) = false := beq_eq_false_iff_ne.mpr h2
          simp [dictSet, List.lookup, hb, h2]
      · by_cases h2 : k' = a
        · subst h2
          simp [dictSet, h1, List.lookup, beq_self_eq_true]
        · have hb : (k' == a) = false := beq_eq_false_iff_ne.mpr h2
          simp [dictSet, h1, List.lookup, hb, h2, ih]

theorem lookup_load_manifest_isSome (objs : List (String × String))
    (m : List (String × String)) (k : String)
    (h : (m.lookup k).isSome = true) :
    ((load_manifest objs m).lookup k).isSome = true := by
  induction objs generalizing m with
  | nil => exact h
  | cons p rest ih =>
      apply ih
      rw [lookup_dictSet]
      by_cases hk : k = p.1 <;> simp [hk, h]

/-- C3 (amended): the upload is skipped iff the manifest lookup with default
`''` equals the local fingerprint: that is, iff the manifest has an entry for
the key equal to the fingerprint, or the key is absent and the fingerprint is
the empty string.  An absent key with a non-empty fingerprint is uploaded. -/
theorem should_upload_spec (key fp : String) (m : List (String × String)) :
    should_upload key (some fp) m = false
      ↔ (m.lookup key = some fp ∨ (m.lookup key = none ∧ fp = "")) := by
  have hb : ∀ b : Bool, ((!b) = false) ↔ b = true := by decide
  cases h : m.lookup key with
  | none =>
      have hg : manifest_get m key = "" := by simp only [manifest_get, h]
      simp only [should_upload, pyStrEqOpt, hg]
      rw [hb, beq_iff_eq]
      constructor
      · intro h2
        refine Or.inr ⟨?_, h2.symm⟩
        trivial
      · rintro (h2 | ⟨-, h3⟩)
        · exact Option.noConfusion h2
        · exact h3.symm
  | some v =>
      have hg : manifest_get m key = v := by simp only [manifest_get, h]
      simp only [should_upload, pyStrEqOpt, hg]
      rw [hb, beq_iff_eq]
      constructor
      · intro h2
        exact Or.inl (by rw [h2])
      · rintro (h2 | ⟨h2, h3⟩)
        · exact Option.some.inj h2
        · exact Option.noConfusion h2

/-- C3 counterexample: with a key absent from the manifest and the
empty-string fingerprint, the skip branch fires (should_upload is false)
even though the manifest has no entry equal to the fingerprint. -/
theorem should_upload_absent_empty_skips :
    (([] : List (String × String)).lookup "b.txt" = none)
    ∧ should_upload "b.txt" (some "") [] = false := by
  exact ⟨rfl, by decide⟩

/-- C8: an empty local file yields no fingerprint (`gen_etag` returns None),
which never equals the string returned by the manifest lookup, so the skip
branch of `upload_file` never fires and the empty file is uploaded on every
sync run. -/
theorem empty_file_never_skipped (md5 : List Nat → List Nat) (key : String)
    (m : List (String × String)) :
    gen_etag md5 [] = none ∧ should_upload key (gen_etag md5 []) m = true := by
  have h : gen_etag md5 [] = none := by simp [gen_etag, chunks_nil]
  refine ⟨h, ?_⟩
  rw [h]
  simp [should_upload, pyStrEqOpt]

/-- C9: `load_manifest` only adds or overwrites key→fingerprint entries in
`self.manifest` and never removes one, so every key present after the first
sync's `load_manifest` is still present in the manifest consulted by a second
sync's upload decisions on the same BucketManager. -/
theorem manifest_entries_persist (m objs1 objs2 : List (String × String))
    (key : String)
    (h : ((load_manifest objs1 m).lookup key).isSome = true) :
    ((load_manifest objs2 (load_manifest objs1 m)).lookup key).isSome = true :=
  lookup_load_manifest_isSome objs2 (load_manifest objs1 m) key h

/-- C9 witness: a key loaded by the first sync ("a.txt") is still visible
after a second sync loads a listing that no longer contains it. -/
theorem manifest_entries_persist_witness :
    ((load_manifest [("a.txt", "X")] ([] : List (String × String))).lookup
        "a.txt").isSome = true
    ∧ ((load_manifest [("b.txt", "Y")]
          (load_manifest [("a.txt", "X")] [])).lookup "a.txt").isSome = true :=
  ⟨by decide,
   manifest_entries_persist [] [("a.txt", "X")] [("b.txt", "Y")] "a.txt" (by decide)⟩

/-
Region lookup (get_region_name in bucket.py), with Python `or` truthiness
made explicit: `x or y` yields `y` when `x` is None or the empty string.
-/

/-- Python `left or right` where `left` is a string-or-None value: falsy
values (None and the empty string) fall through to `right`. -/
def pyOrStr (x : Option String) (right : String) : String :=
  match x with
  | some s => if s = "" then right else s
  | none => right

/-- `get_region_name` from bucket.py, as a function of the
LocationConstraint field reported by the provider (None for us-east-1). -/
def get_region_name (bucketLocation : Option String) : String :=
  pyOrStr bucketLocation "us-east-1"

/-- C10 counterexample: the empty string is a non-null location constraint,
yet `get_region_name` does not return it (Python `or` treats it as falsy). -/
theorem get_region_name_empty_constraint :
    (some "" ≠ (none : Option String))
    ∧ get_region_name (some "") = "us-east-1"
    ∧ get_region_name (some "") ≠ "" := by
  refine ⟨by simp, rfl, by decide⟩

/-- C10 (amended): `get_region_name` returns the provider-reported location
constraint when it is non-null and non-empty, and returns "us-east-1" when
the provider reports a null or empty constraint; being String-valued it never
returns a null region. -/
theorem get_region_name_spec (loc : Option String) :
    (∀ s, loc = some s → s ≠ "" → get_region_name loc = s)
    ∧ (loc = none → get_region_name loc = "us-east-1")
    ∧ (loc = some "" → get_region_name loc = "us-east-1") := by
  refine ⟨?_, ?_, ?_⟩
  · intro s hs hne
    subst hs
    simp [get_region_name, pyOrStr, hne]
  · intro h
    subst h
    rfl
  · intro h
    subst h
    rfl

/-- C10 witness: the three branches at concrete inputs. -/
theorem get_region_name_spec_witness :
    get_region_name (some "eu-west-1") = "eu-west-1"
    ∧ get_region_name none = "us-east-1"
    ∧ get_region_name (some "") = "us-east-1" :=
  ⟨(get_region_name_spec (some "eu-west-1")).1 "eu-west-1" rfl (by decide),
   (get_region_name_spec none).2.1 rfl,
   (get_region_name_spec (some "")).2.2 rfl⟩

/-
Bucket lifecycle (init_bucket / set_policy / configure_website in bucket.py,
setup_bucket in webotron.py) over an explicit S3 world state.  Bucket
handles are bucket names; a handle of `none` is Python's None.
-/

structure S3World where
  owned : List String
  foreign : List String
  policies : List String
  websites : List String
deriving DecidableEq

/-- Modelled provider semantics of `s3.create_bucket`: a name taken by
another account raises BucketAlreadyExists, a name already owned by the
caller raises BucketAlreadyOwnedByYou, otherwise the bucket is created and
returned. -/
def create_bucket (w : S3World) (name : String) :
    Except String (String × S3World) :=
  if w.foreign.contains name then Except.error "BucketAlreadyExists"
  else if w.owned.contains name then Except.error "BucketAlreadyOwnedByYou"
  else Except.ok (name, { w with owned := name :: w.owned })

/-- `init_bucket` from bucket.py.  The `return s3_bucket` statement of the
source sits inside the `except` block, so the success path falls off the end
of the function and returns None; only the BucketAlreadyOwnedByYou branch
returns the bucket, and any other ClientError is re-raised. -/
def init_bucket (w : S3World) (name : String) :
    Except String (Option String × S3World) :=
  match create_bucket w name with
  | Except.ok (_, w') => Except.ok (none, w')
  | Except.error code =>
      if code = "BucketAlreadyOwnedByYou" then Except.ok (some name, w)
      else Except.error code

/-- `set_policy` from bucket.py applied to the value `setup_bucket` passes
it: calling `bucket.Policy()` on Python None raises AttributeError. -/
def set_policy (w : S3World) (bucket : Option String) : Except String S3World :=
  match bucket with
  | none => Except.error "AttributeError"
  | some b => Except.ok { w with policies := b :: w.policies }

/-- `configure_website` from bucket.py, with the same None behaviour. -/
def configure_website (w : S3World) (bucket : Option String) :
    Except String S3World :=
  match bucket with
  | none => Except.error "AttributeError"
  | some b => Except.ok { w with websites := b :: w.websites }

/-- `setup_bucket` from webotron.py: init_bucket → set_policy →
configure_website.  The result is the world after whatever effects
completed, paired with the raised error, if any (the remote effects of the
steps that ran before an exception are kept). -/
def setup_bucket (w : S3World) (name : String) : S3World × Option String :=
  match init_bucket w name with
  | Except.error e => (w, some e)
  | Except.ok (bucket, w1) =>
      match set_policy w1 bucket with
      | Except.error e => (w1, some e)
      | Except.ok w2 =>
          match configure_website w2 bucket with
          | Except.error e => (w2, some e)
          | Except.ok w3 => (w3, none)

/-- C2: evaluation at the failing input.  On a fresh name the creation
succeeds, yet `init_bucket` returns None instead of the new bucket (the
misindented return); the already-owned conflict returns the existing bucket,
and a foreign-owned name propagates the provider error, as claimed. -/
theorem init_bucket_success_returns_none :
    init_bucket ⟨[], [], [], []⟩ "example.com"
      = Except.ok (none, ⟨["example.com"], [], [], []⟩)
    ∧ init_bucket ⟨["example.com"], [], [], []⟩ "example.com"
      = Except.ok (some "example.com", ⟨["example.com"], [], [], []⟩)
    ∧ init_bucket ⟨[], ["example.com"], [], []⟩ "example.com"
      = Except.error "BucketAlreadyExists" := by
  refine ⟨rfl, rfl, rfl⟩

/-- C4: evaluation at the failing input.  The first `setup-bucket` run on a
fresh name creates the bucket remotely but raises AttributeError, because
`init_bucket` returned None and `set_policy` dereferences it; the second run
on the resulting world (bucket now existing) completes without error and
applies the policy and website configuration. -/
theorem setup_bucket_twice_behavior :
    (setup_bucket ⟨[], [], [], []⟩ "example.com").2 = some "AttributeError"
    ∧ (setup_bucket ⟨[], [], [], []⟩ "example.com").1
        = ⟨["example.com"], [], [], []⟩
    ∧ setup_bucket (setup_bucket ⟨[], [], [], []⟩ "example.com").1 "example.com"
        = (⟨["example.com"], [], ["example.com"], ["example.com"]⟩, none) := by
  refine ⟨rfl, rfl, rfl⟩

/-
setup_cdn (webotron.py) as an event trace.  The collaborator managers
(DistributionManager, CertificateManager, DomainManager) are external to the
command's control flow; the environment records what their lookups return,
and the trace records every call setup_cdn issues, in order.  The second
component of the result is the process exit code: every path of the source
returns normally from the click command, which exits with code 0.
-/

structure CdnEnv where
  distResult : Option String
  certResult : Option String
  zoneResult : Option String
  newDistName : String
  newZoneId : String
deriving DecidableEq

inductive CdnEvent where
  | findDist : CdnEvent
  | findCert : CdnEvent
  | createDist (domain cert : String) : CdnEvent
  | awaitDeploy : CdnEvent
  | findZone : CdnEvent
  | createZone (domain : String) : CdnEvent
  | upsertRecord (zone domain target : String) : CdnEvent
deriving DecidableEq

/-- `domain_manager.find_hosted_zone(domain) or
domain_manager.create_hosted_zone(domain)`: the zone lookup, creating the
zone only when the lookup finds none. -/
def zoneStep (env : CdnEnv) (domain : String) : List CdnEvent × String :=
  match env.zoneResult with
  | some z => ([CdnEvent.findZone], z)
  | none => ([CdnEvent.findZone, CdnEvent.createZone domain], env.newZoneId)

/-- `setup_cdn` from webotron.py: look up a matching distribution; if none,
require a certificate (printing an error and returning when there is none),
create the distribution and await deployment; then find-or-create the hosted
zone and upsert the CloudFront alias record pointing at the distribution's
DomainName. -/
def setup_cdn (env : CdnEnv) (domain : String) : List CdnEvent × Nat :=
  match env.distResult with
  | some distName =>
      let zs := zoneStep env domain
      (CdnEvent.findDist :: zs.1
        ++ [CdnEvent.upsertRecord zs.2 domain distName], 0)
  | none =>
      match env.certResult with
      | none => ([CdnEvent.findDist, CdnEvent.findCert], 0)
      | some cert =>
          let zs := zoneStep env domain
          (CdnEvent.findDist :: CdnEvent.findCert
            :: CdnEvent.createDist domain cert :: CdnEvent.awaitDeploy
            :: zs.1 ++ [CdnEvent.upsertRecord zs.2 domain env.newDistName], 0)

/-- C5 (amended): with no matching distribution and no matching certificate,
setup_cdn aborts before mutating any state — the trace holds only the two
lookups, so no distribution is created, no zone is created and no DNS record
is changed — but the command returns normally after printing an error, so the
process exit code is 0, not non-zero. -/
theorem setup_cdn_no_cert_aborts (env : CdnEnv) (domain : String)
    (hd : env.distResult = none) (hc : env.certResult = none) :
    (setup_cdn env domain).1 = [CdnEvent.findDist, CdnEvent.findCert]
    ∧ (setup_cdn env domain).2 = 0 := by
  simp [setup_cdn, hd, hc]

/-- C5 witness: the abort branch at a concrete environment. -/
theorem setup_cdn_no_cert_aborts_witness :
    (setup_cdn ⟨none, none, some "Z1", "d1.cloudfront.net", "z1"⟩ "site.org").1
      = [CdnEvent.findDist, CdnEvent.findCert]
    ∧ (setup_cdn ⟨none, none, some "Z1", "d1.cloudfront.net", "z1"⟩ "site.org").2
      = 0 :=
  setup_cdn_no_cert_aborts ⟨none, none, some "Z1", "d1.cloudfront.net", "z1"⟩
    "site.org" rfl rfl

/-- C5 counterexample: at a concrete environment with no matching
distribution and no matching certificate, the exit code is 0; the claim's
demand of a non-zero exit code fails on the code. -/
theorem setup_cdn_no_cert_exit_code :
    setup_cdn ⟨none, none, none, "d1.cloudfront.net", "Z9"⟩ "example.com"
      = ([CdnEvent.findDist, CdnEvent.findCert], 0) := rfl

/-- C7: when the distribution lookup finds an existing distribution,
setup_cdn issues no create-distribution call and no certificate lookup, and
its final action is the DNS alias-record upsert for the domain, pointing at
the found distribution's DomainName. -/
theorem setup_cdn_reuse (env : CdnEnv) (domain d : String)
    (hd : env.distResult = some d) :
    (∀ a c, CdnEvent.createDist a c ∉ (setup_cdn env domain).1)
    ∧ CdnEvent.findCert ∉ (setup_cdn env domain).1
    ∧ (∃ z, (setup_cdn env domain).1.getLast?
        = some (CdnEvent.upsertRecord z domain d)) := by
  cases hz : env.zoneResult with
  | some z =>
      refine ⟨?_, ?_, ⟨z, ?_⟩⟩ <;> simp [setup_cdn, zoneStep, hd, hz]
  | none =>
      refine ⟨?_, ?_, ⟨env.newZoneId, ?_⟩⟩ <;> simp [setup_cdn, zoneStep, hd, hz]

/-- C7 witness: reuse of a found distribution at a concrete environment. -/
theorem setup_cdn_reuse_witness :
    CdnEvent.createDist "example.com" "arn1"
      ∉ (setup_cdn ⟨some "dd.cloudfront.net", some "arn1", some "Z1", "n1", "z1"⟩
          "example.com").1
    ∧ CdnEvent.findCert
      ∉ (setup_cdn ⟨some "dd.cloudfront.net", some "arn1", some "Z1", "n1", "z1"⟩
          "example.com").1
    ∧ (setup_cdn ⟨some "dd.cloudfront.net", some "arn1", some "Z1", "n1", "z1"⟩
          "example.com").1.getLast?
        = some (CdnEvent.upsertRecord "Z1" "example.com" "dd.cloudfront.net") := by
  have h := setup_cdn_reuse
    ⟨some "dd.cloudfront.net", some "arn1", some "Z1", "n1", "z1"⟩
    "example.com" "dd.cloudfront.net" rfl
  exact ⟨h.1 "example.com" "arn1", h.2.1, by decide⟩

/-
The Python-level outcome of gen_etag: the body of gen_etag contains no raise
statement, so once the file has been read it always returns normally — either
None (zero chunks) or a fingerprint string.  `Except.error` would model a
raised exception.
-/

/-- The outcome of a `gen_etag` call on a readable file: each branch of the
source is a plain `return`, so every path is `Except.ok`; no path raises. -/
def gen_etag_outcome (md5 : List Nat → List Nat) (content : List Nat) :
    Except String (Option String) :=
  match (chunks content).map md5 with
  | [] => Except.ok none
  | [h] => Except.ok (some (dquote (hexdigest h)))
  | h1 :: h2 :: t =>
      Except.ok (some (dquote (hexdigest (md5 ((h2 :: t).foldl (· ++ ·) h1))
        ++ "-" ++ toString (h1 :: h2 :: t).length)))

/-- C6 counterexample: on a file with zero chunks (empty content) gen_etag
returns None normally; it does not fail with a NotHashable error (no such
error exists anywhere in the code). -/
theorem gen_etag_empty_no_error :
    gen_etag_outcome (fun _ => List.replicate 16 0) [] = Except.ok none
    ∧ gen_etag_outcome (fun _ => List.replicate 16 0) []
        ≠ Except.error "NotHashable" := by
  have h : gen_etag_outcome (fun _ => List.replicate 16 0) [] = Except.ok none := by
    simp [gen_etag_outcome, chunks_nil]
  exact ⟨h, by rw [h]; exact Except.noConfusion⟩

/-- C6 (amended): for every file that yields zero chunks, gen_etag returns
None — no fingerprint value — via a normal return, raising no error. -/
theorem gen_etag_zero_chunks_none (md5 : List Nat → List Nat)
    (content : List Nat) (h : chunks content = []) :
    gen_etag_outcome md5 content = Except.ok none
    ∧ gen_etag md5 content = none := by
  constructor
  · simp [gen_etag_outcome, h]
  · simp [gen_etag, h]

/-- C6 witness: the zero-chunk case at the empty file. -/
theorem gen_etag_zero_chunks_none_witness :
    gen_etag_outcome (fun l => l) [] = Except.ok none
    ∧ gen_etag (fun l => l) [] = none :=
  gen_etag_zero_chunks_none (fun l => l) [] chunks_nil

end Webotron
